import Mathlib

/-!
Shallow embedding of the chat-bot core in `spaCyChatBot/spaCyChatBot.py`:
the sentence-type classifier (`SentenceTyper`), the verb-phrase extractor
(`VerbFinder`), the point-of-view substitution (`povs` / `povs_c` / `re.sub`)
and the five reply-template handlers.

Tokens and sentences are the annotated data the core receives from spaCy
(the external annotator): each token carries surface text, fine-grained tag,
coarse part of speech, lemma, dependency label and the index of its syntactic
head; a sentence carries its surface text, its ordered token list and its
noun-chunk spans.  Randomness (`random.choice`) is modelled by explicit
choice arguments: `pick l c` selects element `c % l.length`, so every actual
run of the program corresponds to some choice of the `c` arguments.
-/

/-- One annotated word, as produced by the external annotator.  Fields mirror
the spaCy token attributes the core reads: `text`, `tag` (TAG), `pos` (POS),
`lemmaStr` (LEMMA), `dep` (DEP, the dependency label) and `head`, the index of
the token's syntactic head inside the sentence. -/
structure Token where
  text : String
  tag : String
  pos : String
  lemmaStr : String
  dep : String
  head : Nat
deriving DecidableEq

/-- A noun-chunk span: its surface text and the dependency label of its root
token (`chunk.text`, `chunk.root.dep_`). -/
structure Chunk where
  text : String
  rootDep : String
deriving DecidableEq

/-- One annotated sentence: surface text, ordered tokens, noun chunks. -/
structure Sentence where
  text : String
  tokens : List Token
  chunks : List Chunk
deriving DecidableEq

instance : Inhabited Token := ⟨⟨"", "", "", "", "", 0⟩⟩

/-- `sentence[i]` with an out-of-range default (the extractor and the
classifier only ever produce in-range indices). -/
def tokAt (s : Sentence) (i : Nat) : Token := s.tokens.getD i default

/-- Python `str.lower()` restricted to the ASCII range used by the program. -/
def strLower (s : String) : String := String.mk (s.toList.map Char.toLower)

/- ------------------------------------------------------------------
Point-of-view transformer: `povs`, `povs_c` and
`re.sub(povs_c, lambda match: povs.get(match.group()), text)`.
------------------------------------------------------------------ -/

/-- The `povs` dictionary, in insertion order (Python dicts preserve it, and
`povs_c` joins the keys in exactly this order). -/
def povs : List (String × String) :=
  [("I am", "you are"),
   ("I was", "you were"),
   ("I'm", "you're"),
   ("I'd", "you'd"),
   ("I've", "you've"),
   ("I'll", "you'll"),
   ("you are", "I am"),
   ("you were", "I was"),
   ("you're", "I'm"),
   ("you'd", "I'd"),
   ("you've", "I've"),
   ("you'll", "I'll"),
   ("I", "you"),
   ("my", "your"),
   ("your", "my"),
   ("yours", "mine"),
   ("you", "I"),
   ("me", "you")]

/-- The alternation of `povs_c`: the keys of `povs`, in order.  Python's
alternation is leftmost-alternative-first, i.e. `List.find?` over this list. -/
def povKeys : List String := povs.map Prod.fst

/-- `povs.get k`: lookup in the dictionary. -/
def povLook (k : String) : Option String :=
  (povs.find? (fun kv => kv.1 == k)).map Prod.snd

/-- A regex word character (`\w` for the ASCII texts the bot handles):
letters, digits, underscore. -/
def isWordChar (c : Char) : Bool := c.isAlphanum || c == '_'

/-- Whether an optional character position counts as a word character
(out-of-string counts as non-word). -/
def wordOpt : Option Char → Bool
  | none => false
  | some c => isWordChar c

/-- The `\b` word-boundary test between two adjacent positions. -/
def boundary (a b : Option Char) : Bool := wordOpt a != wordOpt b

/-- Whether alternation entry `k` matches at the head of `cs` and the
trailing `\b` of `povs_c` holds after it. -/
def keyHit (cs : List Char) (k : String) : Bool :=
  k.toList.isPrefixOf cs && boundary k.toList.getLast? ((cs.drop k.toList.length).head?)

/-- One attempt of `povs_c` at the current position: `prev` is the original
character just before this position.  Requires the leading `\b`, then tries
the alternatives in the order they appear in the compiled pattern, each with
its trailing `\b`. -/
def findKey (prev : Option Char) (cs : List Char) : Option String :=
  if boundary prev cs.head? then povKeys.find? (keyHit cs) else none

/-- The left-to-right scan of `re.sub`: at each position try a match; on a
match emit the dictionary replacement and resume after the matched key (in
the original input, never re-scanning replaced output); otherwise copy one
character.  The fuel argument is always called with `fuel = cs.length`; every
step consumes at least one input character (all keys are non-empty), so this
fuel is never exhausted and the `fuel = 0` case is unreachable from
`transform`. -/
def povSubF : Nat → List Char → Option Char → List Char
  | 0, cs, _ => cs
  | _ + 1, [], _ => []
  | fuel + 1, c :: rest, prev =>
    match findKey prev (c :: rest) with
    | some k =>
        ((povLook k).getD "").toList ++
          povSubF fuel ((c :: rest).drop k.toList.length) k.toList.getLast?
    | none => c :: povSubF fuel rest (some c)

/-- `re.sub(povs_c, lambda match: povs.get(match.group()), text)`. -/
def transform (s : String) : String := String.mk (povSubF s.toList.length s.toList none)

/- ------------------------------------------------------------------
Sentence-type classifier: `SentenceTyper`.
------------------------------------------------------------------ -/

/-- WH-QUESTION variant: sentence-start token with TAG in
WDT / WP / WP$ / WRB. -/
def matchWH (s : Sentence) : Bool :=
  (s.tokens[0]?).any (fun t => ["WDT", "WP", "WP$", "WRB"].contains t.tag)

/-- YN-QUESTION variant 1: sentence-start MD token followed by a token with
POS in PRON / PROPN / DET. -/
def matchYN1 (s : Sentence) : Bool :=
  (s.tokens[0]?).any (fun t => t.tag == "MD") &&
  (s.tokens[1]?).any (fun t => ["PRON", "PROPN", "DET"].contains t.pos)

/-- YN-QUESTION variant 2: sentence-start VERB, then PRON / PROPN / DET,
then VERB. -/
def matchYN2 (s : Sentence) : Bool :=
  (s.tokens[0]?).any (fun t => t.pos == "VERB") &&
  (s.tokens[1]?).any (fun t => ["PRON", "PROPN", "DET"].contains t.pos) &&
  (s.tokens[2]?).any (fun t => t.pos == "VERB")

/-- Any YN-QUESTION variant. -/
def matchYN (s : Sentence) : Bool := matchYN1 s || matchYN2 s

/-- INSTRUCTION variant 1: sentence-start token with TAG VB. -/
def matchINSTR1 (s : Sentence) : Bool :=
  (s.tokens[0]?).any (fun t => t.tag == "VB")

/-- INSTRUCTION variant 2: sentence-start token whose lowercase text is
"please" or "kindly", followed by a TAG VB token. -/
def matchINSTR2 (s : Sentence) : Bool :=
  (s.tokens[0]?).any (fun t => ["please", "kindly"].contains (strLower t.text)) &&
  (s.tokens[1]?).any (fun t => t.tag == "VB")

/-- Any INSTRUCTION variant. -/
def matchINSTR (s : Sentence) : Bool := matchINSTR1 s || matchINSTR2 s

/-- WISH variant 1: PRP, MD, then a VERB whose lemma is love / like /
appreciate. -/
def matchWISH1 (s : Sentence) : Bool :=
  (s.tokens[0]?).any (fun t => t.tag == "PRP") &&
  (s.tokens[1]?).any (fun t => t.tag == "MD") &&
  (s.tokens[2]?).any (fun t => t.pos == "VERB" && ["love", "like", "appreciate"].contains t.lemmaStr)

/-- WISH variant 2: PRP then a VERB whose lemma is want / need / require. -/
def matchWISH2 (s : Sentence) : Bool :=
  (s.tokens[0]?).any (fun t => t.tag == "PRP") &&
  (s.tokens[1]?).any (fun t => t.pos == "VERB" && ["want", "need", "require"].contains t.lemmaStr)

/-- Any WISH variant. -/
def matchWISH (s : Sentence) : Bool := matchWISH1 s || matchWISH2 s

/-- Modelled from the spec: spaCy's `Matcher` returns its match list in a
library-internal retrieval order that the repository does not contain; the
spec (section 4.4 and the section 9 open question) fixes `matches[0]` to the
deterministic label priority WH-QUESTION, YN-QUESTION, INSTRUCTION, WISH,
which is also the order `SentenceTyper.__init__` adds the patterns.  The
pattern contents themselves are taken from the source.  This is the list of
match ids, highest priority first. -/
def matchIds (s : Sentence) : List String :=
  (if matchWH s then ["WH-QUESTION"] else []) ++
  (if matchYN s then ["YN-QUESTION"] else []) ++
  (if matchINSTR s then ["INSTRUCTION"] else []) ++
  (if matchWISH s then ["WISH"] else [])

/-- The five intent labels; each stands for the handler function
`SentenceTyper.__call__` returns. -/
inductive SentenceType where
  | wh_question
  | yn_question
  | wish
  | instruction
  | generic
deriving DecidableEq

/-- `SentenceTyper.__call__`: look at the first match and return the matching
handler; with no matches return the generic handler.  `none` models the
implicit Python `return None` fall-through reached when the first match id is
none of the four known ids (the `if / elif` chain tests them in the source's
order WH-QUESTION, YN-QUESTION, WISH, INSTRUCTION and has no final `else`
inside the non-empty branch). -/
def sentenceTyperCall (s : Sentence) : Option SentenceType :=
  match matchIds s with
  | [] => some SentenceType.generic
  | mid :: _ =>
    if mid == "WH-QUESTION" then some SentenceType.wh_question
    else if mid == "YN-QUESTION" then some SentenceType.yn_question
    else if mid == "WISH" then some SentenceType.wish
    else if mid == "INSTRUCTION" then some SentenceType.instruction
    else none

/- ------------------------------------------------------------------
Verb-phrase extractor: `VerbFinder`.
------------------------------------------------------------------ -/

/-- The anchor of every `VERBPHRASE` pattern: the first token whose DEP is
"ROOT" (a parsed sentence has exactly one). -/
def rootIdx (s : Sentence) : Option Nat :=
  (List.range s.tokens.length).find? (fun i => (tokAt s i).dep == "ROOT")

/-- The `>` relation of the dependency patterns: the direct syntactic
children of token `i`, in ascending token order (a token is not its own
child). -/
def childrenOf (s : Sentence) (i : Nat) : List Nat :=
  (List.range s.tokens.length).filter (fun j => (tokAt s j).head == i && j != i)

/-- Python `sorted` on the matched token indices. -/
def sortIdxs (l : List Nat) : List Nat := l.insertionSort (· ≤ ·)

/-- `VerbFinder.__call__`: try the three `VERBPHRASE` dependency patterns in
the order they were added — (root, TAG VB child, TAG MD child), then
(root, POS AUX child), then (root) alone — and return the sorted token
indices of the first pattern that matches, or Python `None` (here `none`)
when there is no match at all, i.e. no ROOT token.

Modelled from the spec: with several matches `verbmatches[0]` depends on
spaCy's `DependencyMatcher` internal ordering, which the repository does not
contain; the spec (section 4.2) fixes it to pattern priority order with ties
broken by lowest token index, which is what taking `List.find?` over the
ascending `childrenOf` list implements.  The pattern contents themselves are
taken from the source. -/
def verbFinderCall (s : Sentence) : Option (List Nat) :=
  match rootIdx s with
  | none => none
  | some r =>
    match (childrenOf s r).find? (fun j => (tokAt s j).tag == "VB"),
          (childrenOf s r).find? (fun j => (tokAt s j).tag == "MD") with
    | some vb, some md => some (sortIdxs [r, vb, md])
    | _, _ =>
      match (childrenOf s r).find? (fun j => (tokAt s j).pos == "AUX") with
      | some aux => some (sortIdxs [r, aux])
      | none => some (sortIdxs [r])

/- ------------------------------------------------------------------
Reply handlers.
------------------------------------------------------------------ -/

/-- `random.choice(l)` with the random draw made explicit: choice argument
`c` selects element `c % l.length`, so the possible outputs over all `c` are
exactly the elements of `l`. -/
def pick (l : List String) (c : Nat) : String := l.getD (c % l.length) ""

/-- `" ".join(sentence[i].text.lower() for i in verbs_idxs)`: the verb slot
of the question handlers. -/
def verbSlot (s : Sentence) (idxs : List Nat) : String :=
  String.intercalate " " (idxs.map (fun i => strLower (tokAt s i).text))

/-- `[chunk.text for chunk in sentence.noun_chunks if chunk.root.dep_ == d]`. -/
def chunkTexts (s : Sentence) (d : String) : List String :=
  (s.chunks.filter (fun c => c.rootDep == d)).map Chunk.text

/-- `wh_question_handler`.  The handler iterates over `verbs_idxs`; when the
extractor produced Python `None` that iteration raises, modelled by `none`.
`c1` and `c2` are the two independent `random.choice` draws. -/
def wh_question_handler (s : Sentence) (verbs : Option (List Nat)) (c1 c2 : Nat) :
    Option String :=
  match verbs with
  | none => none
  | some idxs =>
    let r1 := [strLower (tokAt s 0).text]
    let r2 := r1 ++ (match chunkTexts s "nsubj" with | [] => [] | t :: _ => [t])
    let r3 := r2 ++ [verbSlot s idxs]
    let r4 := r3 ++ (match chunkTexts s "dobj" with | [] => [] | t :: _ => [t])
    let core := transform (String.intercalate " " r4)
    some (pick ["I don't know ", "I can't say "] c1 ++ core ++
      pick [", but I'll try to find out for you. Please check in with me again later.",
            ", but perhaps that's something I'd be able to find out for you. Remind me, if I forget.",
            ". I'll see if I can find out, though. Ask me again sometime."] c2)

/-- `yn_question_handler`, same shape without the leading wh-word. -/
def yn_question_handler (s : Sentence) (verbs : Option (List Nat)) (c1 c2 : Nat) :
    Option String :=
  match verbs with
  | none => none
  | some idxs =>
    let r2 := (match chunkTexts s "nsubj" with | [] => [] | t :: _ => [t])
    let r3 := r2 ++ [verbSlot s idxs]
    let r4 := r3 ++ (match chunkTexts s "dobj" with | [] => [] | t :: _ => [t])
    let core := transform (String.intercalate " " r4)
    some (pick ["I don't know whether ", "I can't say if "] c1 ++ core ++
      pick [" at this very moment. Let me find out.",
            ". I may have to think about this some more."] c2)

/-- `wish_handler`: full sentence text, perspective-transformed, wrapped. -/
def wish_handler (s : Sentence) (_verbs : Option (List Nat)) (c1 c2 : Nat) :
    Option String :=
  some (pick ["Understood: ", "Got it: "] c1 ++ transform s.text ++
    pick [" I'll see what I can do.", ""] c2)

/-- `instruction_handler`: like the wish handler with its own suffixes. -/
def instruction_handler (s : Sentence) (_verbs : Option (List Nat)) (c1 c2 : Nat) :
    Option String :=
  some (pick ["Understood: ", "Got it: "] c1 ++ transform s.text ++
    pick [" What do you think about that?", " Thanks for sharing."] c2)

/-- `generic_handler`: the transformed sentence text, unwrapped. -/
def generic_handler (s : Sentence) (_verbs : Option (List Nat)) (_c1 _c2 : Nat) :
    Option String :=
  some (transform s.text)

/-- The handler function each label stands for (the value
`SentenceTyper.__call__` returns). -/
def handlerOf : SentenceType → Sentence → Option (List Nat) → Nat → Nat → Option String
  | SentenceType.wh_question => wh_question_handler
  | SentenceType.yn_question => yn_question_handler
  | SentenceType.wish => wish_handler
  | SentenceType.instruction => instruction_handler
  | SentenceType.generic => generic_handler

/- ------------------------------------------------------------------
Concrete annotated sentences used as test inputs.
------------------------------------------------------------------ -/

/-- "What is your name?" as annotated by the external parser: What/WP/attr,
is/VBZ/ROOT, your/PRP$/poss, name/NN/nsubj, ?/./punct, with the single noun
chunk "your name" rooted at the nsubj token. -/
def whatS : Sentence :=
  { text := "What is your name?",
    tokens :=
      [⟨"What", "WP", "PRON", "what", "attr", 1⟩,
       ⟨"is", "VBZ", "AUX", "be", "ROOT", 1⟩,
       ⟨"your", "PRP$", "PRON", "your", "poss", 3⟩,
       ⟨"name", "NN", "NOUN", "name", "nsubj", 1⟩,
       ⟨"?", ".", "PUNCT", "?", "punct", 1⟩],
    chunks := [⟨"your name", "nsubj"⟩] }

/-- The zero-token sentence an annotator could supply. -/
def emptyS : Sentence := { text := "", tokens := [], chunks := [] }

/-- A sentence with no ROOT dependency label at all. -/
def noRootS : Sentence :=
  { text := "Huh", tokens := [⟨"Huh", "UH", "INTJ", "huh", "intj", 0⟩], chunks := [] }

/-- A sentence satisfying simultaneously YN-QUESTION variant 1 (MD token then
PRON) and INSTRUCTION variant 2 ("please" then TAG VB), and no WH-QUESTION
variant. -/
def bothS : Sentence :=
  { text := "Please you",
    tokens :=
      [⟨"Please", "MD", "AUX", "please", "aux", 1⟩,
       ⟨"you", "VB", "PRON", "you", "ROOT", 1⟩],
    chunks := [] }

/-- A sentence whose root has both a TAG VB direct child and a TAG MD direct
child (shape one of the verb-phrase extractor). -/
def wouldGoS : Sentence :=
  { text := "Would go like",
    tokens :=
      [⟨"Would", "MD", "AUX", "would", "aux", 2⟩,
       ⟨"go", "VB", "VERB", "go", "xcomp", 2⟩,
       ⟨"like", "VBP", "VERB", "like", "ROOT", 2⟩],
    chunks := [] }

/- ------------------------------------------------------------------
Helper lemmas.
------------------------------------------------------------------ -/

/-- Every alternation entry of `povs_c` is a non-empty string. -/
theorem povKeys_toList_ne_nil : ∀ k ∈ povKeys, k.toList ≠ [] := by decide

/-- `List.find?` over a strictly ascending list returns the least element
satisfying the predicate. -/
theorem find?_min_of_sorted :
    ∀ (l : List Nat) (p : Nat → Bool) (a : Nat), List.Pairwise (· < ·) l →
      l.find? p = some a → ∀ b ∈ l, p b = true → a ≤ b := by
  intro l
  induction l with
  | nil => intro p a _ h; simp at h
  | cons x xs ih =>
    intro p a hpw hf b hb hpb
    rcases List.mem_cons.mp hb with hbx | hbxs
    · subst hbx
      cases hpx : p b with
      | false => rw [hpb] at hpx; cases hpx
      | true =>
        rw [List.find?_cons_of_pos _ hpx] at hf
        cases hf
        exact Nat.le_refl _
    · cases hpx : p x with
      | false =>
        rw [List.find?_cons_of_neg _ (by simp [hpx])] at hf
        exact ih p a (List.Pairwise.sublist (List.sublist_cons_self x xs) hpw) hf b hbxs hpb
      | true =>
        rw [List.find?_cons_of_pos _ hpx] at hf
        cases hf
        exact Nat.le_of_lt ((List.pairwise_cons.mp hpw).1 b hbxs)

/-- The child list of any token is strictly ascending. -/
theorem childrenOf_pairwise (s : Sentence) (r : Nat) :
    List.Pairwise (· < ·) (childrenOf s r) :=
  List.Pairwise.filter _ (List.pairwise_lt_range _)

/-- A child of token `r` is never `r` itself. -/
theorem ne_of_mem_childrenOf {s : Sentence} {r j : Nat} (h : j ∈ childrenOf s r) :
    j ≠ r := by
  unfold childrenOf at h
  have := (List.mem_filter.mp h).2
  simp only [Bool.and_eq_true, bne_iff_ne] at this
  exact this.2

/-- Scanning a run of word characters with a word character directly before
it performs no substitution: the leading word boundary fails at every
position of the run. -/
theorem povSubF_allWord :
    ∀ (cs : List Char) (c : Char), isWordChar c = true →
      cs.all isWordChar = true → povSubF cs.length cs (some c) = cs := by
  intro cs
  induction cs with
  | nil => intro c _ _; rfl
  | cons d rest ih =>
    intro c hc h
    rw [List.all_cons, Bool.and_eq_true] at h
    have hfk : findKey (some c) (d :: rest) = none := by
      unfold findKey
      simp [boundary, wordOpt, hc, h.1]
    show povSubF (rest.length + 1) (d :: rest) (some c) = d :: rest
    simp only [povSubF, hfk]
    rw [ih d h.1 h.2]

/- ------------------------------------------------------------------
Claim theorems.
------------------------------------------------------------------ -/

/-- C4: for every sentence, including the zero-token sentence, the classifier
returns exactly one of the five intent labels and never falls through to the
Python `return None` path; for the zero-token sentence the label is GENERIC
and the generic handler's reply text is the empty string. -/
theorem c4_classifier_total :
    (∀ s : Sentence, ∃ t, sentenceTyperCall s = some t) ∧
    sentenceTyperCall emptyS = some SentenceType.generic ∧
    generic_handler emptyS (verbFinderCall emptyS) 0 0 = some "" := by
  refine ⟨fun s => ?_, by decide, by decide⟩
  unfold sentenceTyperCall matchIds
  cases matchWH s <;> cases matchYN s <;> cases matchINSTR s <;> cases matchWISH s <;> simp

/-- C5: each key of the point-of-view lexicon, transformed alone, yields
exactly its mapped value; in particular the multi-word key "I am" becomes
"you are", not "you am". -/
theorem c5_pov_lexicon_round :
    (∀ kv ∈ povs, transform kv.1 = kv.2) ∧
    transform "I am" = "you are" ∧ transform "I am" ≠ "you am" := by decide

/-- Witness for C5 at the concrete pair ("I am", "you are"). -/
theorem c5_pov_lexicon_round_witness : transform "I am" = "you are" :=
  c5_pov_lexicon_round.1 ("I am", "you are") (by decide)

/-- C10: the WISH, INSTRUCTION and GENERIC reply templates do not read the
verb-phrase argument: with the same random choices, any two verb-phrase
values (including the absent one) give the same reply. -/
theorem c10_templates_ignore_verb_phrase :
    ∀ (s : Sentence) (v1 v2 : Option (List Nat)) (c1 c2 : Nat),
      wish_handler s v1 c1 c2 = wish_handler s v2 c1 c2 ∧
      instruction_handler s v1 c1 c2 = instruction_handler s v2 c1 c2 ∧
      generic_handler s v1 c1 c2 = generic_handler s v2 c1 c2 :=
  fun _ _ _ _ _ => ⟨rfl, rfl, rfl⟩

/-- C2 counterexample: on a sentence with no ROOT dependency label the
extractor returns Python None (`none`), not the empty index list, and the
WH-question template fed that `None` does not produce a reply string. -/
theorem c2_no_root_counterexample :
    verbFinderCall noRootS = none ∧
    verbFinderCall noRootS ≠ some [] ∧
    (noRootS.tokens.all (fun t => t.dep != "ROOT")) = true ∧
    wh_question_handler noRootS (verbFinderCall noRootS) 0 0 = none := by decide

/-- C2 amended: for every sentence with no ROOT token the extractor returns
`none` (Python None — a null value, not an error); the WISH, INSTRUCTION and
GENERIC templates still produce a reply string whatever verb-phrase value
they receive, and the verb slot rendered from an empty index list is the
empty string. -/
theorem c2_no_root_amended :
    (∀ s : Sentence, (∀ t ∈ s.tokens, t.dep ≠ "ROOT") → verbFinderCall s = none) ∧
    (∀ (s : Sentence) (v : Option (List Nat)) (c1 c2 : Nat),
      (wish_handler s v c1 c2).isSome = true ∧
      (instruction_handler s v c1 c2).isSome = true ∧
      (generic_handler s v c1 c2).isSome = true) ∧
    (∀ s : Sentence, verbSlot s [] = "") := by
  refine ⟨fun s h => ?_, fun s v c1 c2 => ⟨rfl, rfl, rfl⟩, fun s => rfl⟩
  have hroot : rootIdx s = none := by
    unfold rootIdx
    refine List.find?_eq_none.mpr (fun i hi => ?_)
    have hlen : i < s.tokens.length := List.mem_range.mp hi
    have hmem : tokAt s i ∈ s.tokens := by
      unfold tokAt
      rw [List.getD_eq_getElem?_getD, List.getElem?_eq_getElem hlen]
      exact List.getElem_mem hlen
    simp only [beq_iff_eq]
    exact h _ hmem
  unfold verbFinderCall
  rw [hroot]

/-- Witness for C2 amended at the concrete root-less sentence. -/
theorem c2_no_root_amended_witness : verbFinderCall noRootS = none :=
  c2_no_root_amended.1 noRootS (by decide)

/-- C3 counterexample: on "What is your name?" the classifier does return
WH-QUESTION and the perspective transform does turn "your name" into
"my name", but the generated reply (here with both random draws at 0) starts
with the random prefix, not with "what". -/
theorem c3_what_name_counterexample :
    sentenceTyperCall whatS = some SentenceType.wh_question ∧
    wh_question_handler whatS (verbFinderCall whatS) 0 0 =
      some "I don't know what my name is, but I'll try to find out for you. Please check in with me again later." ∧
    ("what".toList.isPrefixOf
      "I don't know what my name is, but I'll try to find out for you. Please check in with me again later.".toList) = false := by
  decide

/-- C3 amended: on "What is your name?" the classifier returns WH-QUESTION
and, for every pair of random draws, the reply is one of the two fixed
prefixes followed by the body "what my name is" (which begins with "what"
and contains "my name", the perspective transform of "your name") and a
random suffix. -/
theorem c3_what_name_amended :
    sentenceTyperCall whatS = some SentenceType.wh_question ∧
    (∀ c1 c2 : Nat, ∃ p q : String,
      (p = "I don't know " ∨ p = "I can't say ") ∧
      wh_question_handler whatS (verbFinderCall whatS) c1 c2 =
        some (p ++ "what my name is" ++ q)) ∧
    ("what".toList.isPrefixOf "what my name is".toList) = true ∧
    ("my name".toList <:+: "what my name is".toList) ∧
    transform "your name" = "my name" := by
  refine ⟨by decide, fun c1 c2 => ?_, by decide, by decide, by decide⟩
  refine ⟨pick ["I don't know ", "I can't say "] c1,
      pick [", but I'll try to find out for you. Please check in with me again later.",
            ", but perhaps that's something I'd be able to find out for you. Remind me, if I forget.",
            ". I'll see if I can find out, though. Ask me again sometime."] c2, ?_, ?_⟩
  · rcases Nat.mod_two_eq_zero_or_one c1 with h | h
    · left; simp [pick, h]
    · right; simp [pick, h]
  · have hv : verbFinderCall whatS = some [1] := by decide
    rw [hv]
    rfl

/-- C1: the classifier tests WH-QUESTION, then YN-QUESTION, then INSTRUCTION,
then WISH, returning the first label with a matching variant (GENERIC when
none matches); in particular a sentence matching both a YN-QUESTION variant
and an INSTRUCTION variant — and, per the stated priority, no WH-QUESTION
variant — is classified YN-QUESTION. -/
theorem c1_classifier_priority :
    ∀ s : Sentence,
      (matchWH s = true → sentenceTyperCall s = some SentenceType.wh_question) ∧
      (matchWH s = false → matchYN s = true →
        sentenceTyperCall s = some SentenceType.yn_question) ∧
      (matchWH s = false → matchYN s = false → matchINSTR s = true →
        sentenceTyperCall s = some SentenceType.instruction) ∧
      (matchWH s = false → matchYN s = false → matchINSTR s = false → matchWISH s = true →
        sentenceTyperCall s = some SentenceType.wish) ∧
      (matchWH s = false → matchYN s = false → matchINSTR s = false → matchWISH s = false →
        sentenceTyperCall s = some SentenceType.generic) ∧
      (matchWH s = false → matchYN s = true → matchINSTR s = true →
        sentenceTyperCall s = some SentenceType.yn_question) := by
  intro s
  refine ⟨fun h1 => ?_, fun h1 h2 => ?_, fun h1 h2 h3 => ?_, fun h1 h2 h3 h4 => ?_,
      fun h1 h2 h3 h4 => ?_, fun h1 h2 h3 => ?_⟩ <;>
    simp [sentenceTyperCall, matchIds, *]

/-- Witness for C1 at a sentence matching both YN-QUESTION variant 1 and
INSTRUCTION variant 2. -/
theorem c1_classifier_priority_witness :
    matchYN bothS = true ∧ matchINSTR bothS = true ∧
    sentenceTyperCall bothS = some SentenceType.yn_question :=
  ⟨by decide, by decide,
   (c1_classifier_priority bothS).2.2.2.2.2 (by decide) (by decide) (by decide)⟩

/-- `sorted` of a duplicate-free list is strictly ascending. -/
theorem sortIdxs_pairwise_of_nodup {l : List Nat} (h : l.Nodup) :
    List.Pairwise (· < ·) (sortIdxs l) := by
  have hs : List.Sorted (· ≤ ·) (sortIdxs l) := List.sorted_insertionSort _ _
  have hn : (sortIdxs l).Nodup := (List.perm_insertionSort _ _).nodup_iff.mpr h
  exact hs.lt_of_le hn

/-- C7: whenever the verb-phrase extractor returns a result, the returned
index sequence is strictly ascending (so in particular duplicate-free). -/
theorem c7_verb_indices_strict_ascending :
    ∀ (s : Sentence) (l : List Nat), verbFinderCall s = some l →
      List.Pairwise (· < ·) l := by
  intro s l h
  cases hr : rootIdx s with
  | none => simp [verbFinderCall, hr] at h
  | some r =>
    cases hvb : (childrenOf s r).find? (fun j => (tokAt s j).tag == "VB") with
    | some vb =>
      cases hmd : (childrenOf s r).find? (fun j => (tokAt s j).tag == "MD") with
      | some md =>
        simp only [verbFinderCall, hr, hvb, hmd, Option.some.injEq] at h
        subst h
        have hvbm := List.mem_of_find?_eq_some hvb
        have hmdm := List.mem_of_find?_eq_some hmd
        have hvbt : (tokAt s vb).tag = "VB" := by simpa using List.find?_some hvb
        have hmdt : (tokAt s md).tag = "MD" := by simpa using List.find?_some hmd
        have h1 : vb ≠ r := ne_of_mem_childrenOf hvbm
        have h2 : md ≠ r := ne_of_mem_childrenOf hmdm
        have h3 : vb ≠ md := by
          intro he
          rw [he, hmdt] at hvbt
          exact absurd hvbt (by decide)
        refine sortIdxs_pairwise_of_nodup ?_
        simp only [List.nodup_cons, List.mem_cons, List.mem_singleton, List.not_mem_nil,
          not_or, not_false_eq_true, and_true, List.nodup_nil]
        exact ⟨⟨fun hh => h1 hh.symm, fun hh => h2 hh.symm⟩, h3⟩
      | none =>
        cases haux : (childrenOf s r).find? (fun j => (tokAt s j).pos == "AUX") with
        | some aux =>
          simp only [verbFinderCall, hr, hvb, hmd, haux, Option.some.injEq] at h
          subst h
          have hauxm := List.mem_of_find?_eq_some haux
          have h1 : aux ≠ r := ne_of_mem_childrenOf hauxm
          refine sortIdxs_pairwise_of_nodup ?_
          simp only [List.nodup_cons, List.mem_singleton, List.not_mem_nil,
            not_false_eq_true, and_true, List.nodup_nil]
          exact fun hh => h1 hh.symm
        | none =>
          simp only [verbFinderCall, hr, hvb, hmd, haux, Option.some.injEq] at h
          subst h
          exact sortIdxs_pairwise_of_nodup (by simp)
    | none =>
      cases haux : (childrenOf s r).find? (fun j => (tokAt s j).pos == "AUX") with
      | some aux =>
        simp only [verbFinderCall, hr, hvb, haux, Option.some.injEq] at h
        subst h
        have hauxm := List.mem_of_find?_eq_some haux
        have h1 : aux ≠ r := ne_of_mem_childrenOf hauxm
        refine sortIdxs_pairwise_of_nodup ?_
        simp only [List.nodup_cons, List.mem_singleton, List.not_mem_nil,
          not_false_eq_true, and_true, List.nodup_nil]
        exact fun hh => h1 hh.symm
      | none =>
        simp only [verbFinderCall, hr, hvb, haux, Option.some.injEq] at h
        subst h
        exact sortIdxs_pairwise_of_nodup (by simp)

/-- Witness for C7 at the "Would go like" sentence. -/
theorem c7_verb_indices_strict_ascending_witness :
    verbFinderCall wouldGoS = some [0, 1, 2] ∧ List.Pairwise (· < ·) [0, 1, 2] :=
  ⟨by decide, c7_verb_indices_strict_ascending wouldGoS [0, 1, 2] (by decide)⟩

/-- C8: the extractor's three shapes are tried in priority order; when the
root has both a TAG VB direct child and a TAG MD direct child, shape one is
the one used, the chosen VB child and MD child are the lowest-index ones
satisfying the constraint, and the returned indices are exactly
{root, VB child, MD child}. -/
theorem c8_shape_priority_lowest_index :
    ∀ (s : Sentence) (r : Nat), rootIdx s = some r →
      (∃ j ∈ childrenOf s r, (tokAt s j).tag = "VB") →
      (∃ j ∈ childrenOf s r, (tokAt s j).tag = "MD") →
      ∃ vb md : Nat,
        vb ∈ childrenOf s r ∧ (tokAt s vb).tag = "VB" ∧
        (∀ j ∈ childrenOf s r, (tokAt s j).tag = "VB" → vb ≤ j) ∧
        md ∈ childrenOf s r ∧ (tokAt s md).tag = "MD" ∧
        (∀ j ∈ childrenOf s r, (tokAt s j).tag = "MD" → md ≤ j) ∧
        ∃ l, verbFinderCall s = some l ∧ ∀ x, (x ∈ l ↔ x = r ∨ x = vb ∨ x = md) := by
  intro s r hr hexvb hexmd
  have hvbS : ((childrenOf s r).find? (fun j => (tokAt s j).tag == "VB")).isSome := by
    rw [List.find?_isSome]
    obtain ⟨j, hj, ht⟩ := hexvb
    exact ⟨j, hj, by simp [ht]⟩
  have hmdS : ((childrenOf s r).find? (fun j => (tokAt s j).tag == "MD")).isSome := by
    rw [List.find?_isSome]
    obtain ⟨j, hj, ht⟩ := hexmd
    exact ⟨j, hj, by simp [ht]⟩
  obtain ⟨vb, hvb⟩ := Option.isSome_iff_exists.mp hvbS
  obtain ⟨md, hmd⟩ := Option.isSome_iff_exists.mp hmdS
  refine ⟨vb, md, List.mem_of_find?_eq_some hvb, by simpa using List.find?_some hvb,
      fun j hj htj => find?_min_of_sorted _ _ _ (childrenOf_pairwise s r) hvb j hj (by simp [htj]),
      List.mem_of_find?_eq_some hmd, by simpa using List.find?_some hmd,
      fun j hj htj => find?_min_of_sorted _ _ _ (childrenOf_pairwise s r) hmd j hj (by simp [htj]),
      sortIdxs [r, vb, md], by simp [verbFinderCall, hr, hvb, hmd], fun x => ?_⟩
  have hp : List.Perm (sortIdxs [r, vb, md]) [r, vb, md] := List.perm_insertionSort _ _
  rw [hp.mem_iff]
  simp

/-- Witness for C8 at the "Would go like" sentence (root index 2, MD child 0,
VB child 1). -/
theorem c8_shape_priority_lowest_index_witness :
    ∃ vb md : Nat,
      vb ∈ childrenOf wouldGoS 2 ∧ (tokAt wouldGoS vb).tag = "VB" ∧
      (∀ j ∈ childrenOf wouldGoS 2, (tokAt wouldGoS j).tag = "VB" → vb ≤ j) ∧
      md ∈ childrenOf wouldGoS 2 ∧ (tokAt wouldGoS md).tag = "MD" ∧
      (∀ j ∈ childrenOf wouldGoS 2, (tokAt wouldGoS j).tag = "MD" → md ≤ j) ∧
      ∃ l, verbFinderCall wouldGoS = some l ∧ ∀ x, (x ∈ l ↔ x = 2 ∨ x = vb ∨ x = md) :=
  c8_shape_priority_lowest_index wouldGoS 2 (by decide)
    ⟨1, by decide, by decide⟩ ⟨0, by decide, by decide⟩

/-- C9: every match the compiled pattern produces is exactly one of the
lexicon keys (the matched prefix of the remaining input is the key itself),
so the dictionary lookup performed by the substitution callback always finds
a mapped value and the transformation never fails. -/
theorem c9_match_always_in_lexicon :
    ∀ (prev : Option Char) (cs : List Char) (k : String),
      findKey prev cs = some k →
      cs.take k.toList.length = k.toList ∧ k ∈ povKeys ∧ ∃ v, povLook k = some v := by
  intro prev cs k h
  unfold findKey at h
  split at h
  case isTrue hb =>
    have hmem : k ∈ povKeys := List.mem_of_find?_eq_some h
    have hhit : keyHit cs k = true := List.find?_some h
    unfold keyHit at hhit
    rw [Bool.and_eq_true] at hhit
    have hpre : k.toList <+: cs := List.isPrefixOf_iff_prefix.mp hhit.1
    refine ⟨(List.prefix_iff_eq_take.mp hpre).symm, hmem, ?_⟩
    obtain ⟨kv, hkv, hk1⟩ := List.mem_map.mp hmem
    have hsk : (povs.find? (fun kv => kv.1 == k)).isSome := by
      rw [List.find?_isSome]
      exact ⟨kv, hkv, by simp [hk1]⟩
    obtain ⟨kv2, hkv2⟩ := Option.isSome_iff_exists.mp hsk
    exact ⟨kv2.2, by simp [povLook, hkv2]⟩
  case isFalse => cases h

/-- Witness for C9 on the input "I am tall" matched at its start. -/
theorem c9_match_always_in_lexicon_witness :
    "I am tall".toList.take "I am".toList.length = "I am".toList ∧
    "I am" ∈ povKeys ∧ ∃ v, povLook "I am" = some v :=
  c9_match_always_in_lexicon none "I am tall".toList "I am" (by decide)

/-- A run of word characters that is not itself a lexicon key is scanned
without any substitution: no alternation entry can match strictly inside it
because of the trailing word boundary, and matching all of it would make it
a key. -/
theorem povSubF_notKey_allWord :
    ∀ cs : List Char, cs.all isWordChar = true →
      (∀ k ∈ povKeys, k.toList ≠ cs) → povSubF cs.length cs none = cs := by
  intro cs hall hkey
  cases cs with
  | nil => rfl
  | cons c rest =>
    rw [List.all_cons, Bool.and_eq_true] at hall
    have hwall : ∀ x ∈ c :: rest, isWordChar x = true := by
      intro x hx
      rcases List.mem_cons.mp hx with hxc | hxr
      · rw [hxc]; exact hall.1
      · exact List.all_eq_true.mp hall.2 x hxr
    have hfk : findKey none (c :: rest) = none := by
      unfold findKey
      have hbd : boundary none (some c) = true := by
        simp [boundary, wordOpt, hall.1]
      simp only [List.head?_cons, hbd, if_true]
      refine List.find?_eq_none.mpr (fun k hk hhit => ?_)
      unfold keyHit at hhit
      rw [Bool.and_eq_true] at hhit
      have hpre : k.toList <+: c :: rest := List.isPrefixOf_iff_prefix.mp hhit.1
      cases hdrop : ((c :: rest).drop k.toList.length).head? with
      | some d =>
        obtain ⟨ys, hys⟩ := List.head?_eq_some_iff.mp hdrop
        have hdmem : d ∈ c :: rest := List.mem_of_mem_drop (by rw [hys]; exact List.mem_cons_self d ys)
        have hd : isWordChar d = true := hwall d hdmem
        have hkne : k.toList ≠ [] := povKeys_toList_ne_nil k hk
        cases hlast : k.toList.getLast? with
        | none => exact hkne (List.getLast?_eq_none_iff.mp hlast)
        | some lc =>
          have hlcw : isWordChar lc = true :=
            hwall lc (hpre.subset (List.mem_of_getLast?_eq_some hlast))
          rw [hlast, hdrop] at hhit
          have hb2 := hhit.2
          simp [boundary, wordOpt, hlcw, hd] at hb2
      | none =>
        have hlen : (c :: rest).length ≤ k.toList.length := by
          rw [List.head?_eq_none_iff] at hdrop
          exact List.drop_eq_nil_iff.mp hdrop
        exact hkey k hk (hpre.sublist.eq_of_length_le hlen)
    show povSubF (rest.length + 1) (c :: rest) none = c :: rest
    simp only [povSubF, hfk]
    rw [povSubF_allWord rest c hall.1 hall.2]

/-- C6: the transformer substitutes only at word boundaries — every match
carries a leading and a trailing boundary — and consequently a whole word
made of word characters that is not itself a lexicon key passes through
unchanged; in particular "Iron" stays "Iron" (the embedded key "I" does not
fire). -/
theorem c6_whole_word_boundary :
    (∀ (prev : Option Char) (cs : List Char) (k : String),
      findKey prev cs = some k →
      boundary prev cs.head? = true ∧
      boundary k.toList.getLast? ((cs.drop k.toList.length).head?) = true) ∧
    (∀ w : String, w.toList.all isWordChar = true → w ∉ povKeys → transform w = w) ∧
    transform "Iron" = "Iron" := by
  refine ⟨fun prev cs k h => ?_, fun w hall hmem => ?_, by decide⟩
  · unfold findKey at h
    split at h
    case isTrue hb =>
      have hhit : keyHit cs k = true := List.find?_some h
      unfold keyHit at hhit
      rw [Bool.and_eq_true] at hhit
      exact ⟨hb, hhit.2⟩
    case isFalse => cases h
  · have hne : ∀ k ∈ povKeys, k.toList ≠ w.toList := by
      intro k hk he
      exact hmem ((String.ext he) ▸ hk)
    have hres := povSubF_notKey_allWord w.toList hall hne
    unfold transform
    rw [hres]
    cases w
    rfl

/-- Witness for C6: a word containing the key "I" and, separately, a single
matched key, both with their boundaries. -/
theorem c6_whole_word_boundary_witness :
    transform "Ironic" = "Ironic" ∧
    (boundary none ("I".toList.head?) = true ∧
     boundary "I".toList.getLast? (("I".toList.drop "I".toList.length).head?) = true) :=
  ⟨c6_whole_word_boundary.2.1 "Ironic" (by decide) (by decide),
   c6_whole_word_boundary.1 none "I".toList "I" (by decide)⟩
